import Mathlib

/-!
Shallow embedding of src/index.js (package `advancedrequest`).

The module manages a request lifecycle with retries (`fail`,
`onRequestRetriesExhausted`), per-name interval throttling backed by the
module-level object `lastRunHash` (`isSleepIntervalNecessary`,
`sleepIntervalIfNecessary`, `onFinish`), cancellation (`cancelRequest`),
dispatch (`run`) and header parsing (`addHeader`), plus the exported
registry operations `addToLastRunHash` / `removeFromLastRunHash`.

Modelling conventions:
- JS objects used as string-keyed maps (`lastRunHash`, `requestHeaders`)
  are embedded as functions into `Option`.
- Timestamps (`new Date().getTime()`) are `Nat` parameters threaded
  explicitly (`now`); JS numeric subtraction is done in `Int`.
- JS truthiness of a possibly-missing numeric field (`lastReqTime`) is
  `none` or `some 0` falsy, everything else truthy.
- Pending `setTimeout` timers of the JS runtime are explicit boolean
  fields of the instance state: `requestTimeoutArmed` models the timer id
  stored in `this._requestTimeoutInt`, `sleepTimerArmed` models the timer
  created in `sleepIntervalIfNecessary` (whose id the source never
  stores).
- A `throw` is modelled as a distinguished result constructor, invoking
  the completion callback as a `CallbackCall` value.
-/

namespace AdvancedRequest

/-- One value of the module-level `lastRunHash` object: per-name throttle
state `{ lastReqTime, requiredInterval }` (src/index.js lines 32-35).
`lastReqTime` is `none` when the key was registered without one. -/
structure IntervalEntry where
  lastReqTime : Option Nat
  requiredInterval : Nat
deriving DecidableEq, Repr

/-- The `lastRunHash` registry: a JS object keyed by request name. -/
def Registry : Type := String → Option IntervalEntry

/-- JS truthiness test on a possibly-absent numeric field:
`!this.getLastRunHash()[this.name].lastReqTime` is true when the field is
`undefined` or `0`. -/
def jsFalsyNum : Option Nat → Bool
  | none => true
  | some n => n == 0

/-- Point update of a JS object: `obj[name] = e`. -/
def updateEntry (h : Registry) (name : String) (e : IntervalEntry) : Registry :=
  fun k => if k = name then some e else h k

/-- `AdvancedRequest.isSleepIntervalNecessary` (src/index.js lines 150-165).
If `lastRunHash[name]` exists: when `lastReqTime` is falsy it is first set
to `now` (mutating the registry), then the method returns
`now - lastReqTime < requiredInterval`. If no entry exists it returns
`false`. The returned registry is the (possibly mutated) `lastRunHash`. -/
def isSleepIntervalNecessary (h : Registry) (name : String) (now : Nat) :
    Bool × Registry :=
  match h name with
  | none => (false, h)
  | some e =>
    let e' := if jsFalsyNum e.lastReqTime then { e with lastReqTime := some now } else e
    let h' := updateEntry h name e'
    let ms : Int := (now : Int) - (e'.lastReqTime.getD 0 : Int)
    (decide (ms < (e'.requiredInterval : Int)), h')

/-- `this.maxRetries = args.maxRetries || 10` (src/index.js line 48):
JS `||` replaces a falsy left operand, so an absent field or an explicit
`0` both yield `10`. -/
def constructorMaxRetries (argsMaxRetries : Option Nat) : Nat :=
  match argsMaxRetries with
  | none => 10
  | some n => if n = 0 then 10 else n

/-- Result of one `fail` call: either `onRequestRetriesExhausted` ran and
threw (src/index.js lines 93-96, 111-113), or a retry of `run` was
scheduled via `setTimeout(this.run.bind(this), sleepSeconds * 1000)`
(line 115). Neither alternative invokes the completion callback. -/
inductive FailResult where
  | threw (msg : String)
  | scheduled (delayMs : Nat)
deriving DecidableEq, Repr

/-- The mutable per-instance state of an `AdvancedRequest`, restricted to
the fields the throttle/retry/cancel logic reads or writes, together with
the runtime timer facts described in the module docstring. -/
structure Req where
  name : String
  maxRetries : Nat
  numTriesSoFar : Nat
  isRequestComplete : Bool
  markedToCancel : Bool
  requestTimeoutArmed : Bool
  sleepTimerArmed : Bool
  reqObjExists : Bool
  reqObjAborted : Bool
  saveAs : Option String
deriving DecidableEq, Repr

/-- `AdvancedRequest.fail` (src/index.js lines 104-116): increment
`numTriesSoFar`; if `numTriesSoFar >= maxRetries && maxRetries != 0`,
return `onRequestRetriesExhausted()` which throws
`"ADVANCEDREQUEST_RETRIES_EXCEEDED"`; otherwise schedule `run` after
`sleepSeconds * 1000` ms. -/
def fail (r : Req) (sleepSeconds : Nat) : Req × FailResult :=
  let r' := { r with numTriesSoFar := r.numTriesSoFar + 1 }
  if r'.maxRetries ≤ r'.numTriesSoFar ∧ r'.maxRetries ≠ 0 then
    (r', .threw "ADVANCEDREQUEST_RETRIES_EXCEEDED")
  else
    (r', .scheduled (sleepSeconds * 1000))

/-- Iterate the failure path of the lifecycle: each scheduled retry is
assumed to reach the classifier and `fail` again with delay `0` (the
spec scenario "classifier always fails with delay 0"). Returns
`some n` when exhaustion was thrown with `numTriesSoFar = n`, `none` if
the fuel ran out first. -/
def attemptLoop : Req → Nat → Option Nat
  | _, 0 => none
  | r, fuel + 1 =>
    match fail r 0 with
    | (r', .threw _) => some r'.numTriesSoFar
    | (r', .scheduled _) => attemptLoop r' fuel

/-- The single invocation of the caller's completion callback performed by
`onFinish` (src/index.js line 131). -/
inductive CallbackCall where
  | called (result : String)
deriving DecidableEq, Repr

/-- `AdvancedRequest.onFinish` (src/index.js lines 123-132): if the
effective registry has an entry for `this.name`, overwrite its
`lastReqTime` with the current time; set `isRequestComplete = true`; call
`this.callback(result)` once. -/
def onFinish (h : Registry) (r : Req) (now : Nat) (result : String) :
    Registry × Req × CallbackCall :=
  let h' :=
    match h r.name with
    | some e => updateEntry h r.name { e with lastReqTime := some now }
    | none => h
  (h', { r with isRequestComplete := true }, .called result)

/-- `AdvancedRequest.cancelRequest` (src/index.js lines 185-195): a logged
no-op when already canceled or already complete; otherwise abort
`this.reqObj` if present, `clearTimeout(this._requestTimeoutInt)`, and set
`markedToCancel`. The timer created inside `sleepIntervalIfNecessary` is
never stored on `this`, so nothing here clears it. -/
def cancelRequest (r : Req) : Req :=
  if r.markedToCancel then r
  else if r.isRequestComplete then r
  else
    { r with
      reqObjAborted := r.reqObjAborted || r.reqObjExists,
      requestTimeoutArmed := false,
      markedToCancel := true }

/-- What one synchronous `run` invocation did (src/index.js lines 215-283):
bailed out because of cancellation (line 216), scheduled a throttle sleep
via `sleepIntervalIfNecessary` (lines 218-220 and 167-177), or armed the
protection timeout and handed `reqOptions` to the transport (lines
258-277). -/
inductive RunAction where
  | canceledBail
  | sleepRetry (timeToSleepMs : Int)
  | dispatched
deriving DecidableEq, Repr

/-- Runtime errors `run` can raise synchronously. `fsNotDefined` is the
`ReferenceError` from evaluating the unbound identifier `fs` at
src/index.js line 281. -/
inductive JsError where
  | fsNotDefined
deriving DecidableEq, Repr

/-- The modules this file imports: src/index.js line 2 is the only
`require` call in the source (`const request = require('request')`). -/
def moduleRequires : List String := ["request"]

/-- `AdvancedRequest.run` (src/index.js lines 215-283), up to the point
where control leaves the method: bail out if `markedToCancel`; otherwise
consult `isSleepIntervalNecessary` and either schedule a sleep of
`requiredInterval - (now - lastReqTime)` ms (lines 167-177), or arm the
protection timeout, invoke the transport, and — when `saveAs` is set —
evaluate `fs.createWriteStream`, which throws a `ReferenceError` because
`fs` is never required (lines 279-282). -/
def run (h : Registry) (r : Req) (now : Nat) :
    Except JsError (Registry × Req × RunAction) :=
  if r.markedToCancel then .ok (h, r, .canceledBail)
  else
    match isSleepIntervalNecessary h r.name now with
    | (true, h') =>
      let t : Int :=
        match h' r.name with
        | some e => (e.requiredInterval : Int) - ((now : Int) - (e.lastReqTime.getD 0 : Int))
        | none => 0
      .ok (h', { r with sleepTimerArmed := true }, .sleepRetry t)
    | (false, h') =>
      let r' := { r with requestTimeoutArmed := true, reqObjExists := true }
      match r.saveAs with
      | some _ =>
        if moduleRequires.contains "fs" then .ok (h', r', .dispatched)
        else .error .fsNotDefined
      | none => .ok (h', r', .dispatched)

/-- Exported `addToLastRunHash` (src/index.js lines 293-296):
`lastRunHash = Object.assign({}, lastRunHash, items)` — keys of `items`
overwrite keys of the current registry. -/
def addToLastRunHash (h items : Registry) : Registry :=
  fun k =>
    match items k with
    | some v => some v
    | none => h k

/-- Exported `removeFromLastRunHash` (src/index.js lines 297-303): delete
from the registry every key enumerated by `items` that is present. -/
def removeFromLastRunHash (items h : Registry) : Registry :=
  fun k => if (items k).isSome then none else h k

/-- JS `fullHeader.split(': ')` specialised to the two-character separator
used by `addHeader` (src/index.js line 78), on strings as `List Char`:
left-to-right, non-overlapping splitting. -/
def splitCS : List Char → List (List Char)
  | [] => [[]]
  | ':' :: ' ' :: rest => [] :: splitCS rest
  | c :: rest =>
    match splitCS rest with
    | [] => [[c]]
    | p :: ps => (c :: p) :: ps

/-- JS `pieces.join(': ')` (src/index.js line 80) on the same encoding. -/
def joinCS : List (List Char) → List Char
  | [] => []
  | [p] => p
  | p :: ps => p ++ ':' :: ' ' :: joinCS ps

/-- `true` when the string contains no occurrence of the separator
`": "`. -/
def noColonSpace : List Char → Bool
  | [] => true
  | ':' :: ' ' :: _ => false
  | _ :: rest => noColonSpace rest

/-- The `requestHeaders` object (src/index.js line 66). -/
def HeadersMap : Type := List Char → Option (List Char)

/-- `AdvancedRequest.addHeader` (src/index.js lines 77-81):
`pieces = fullHeader.split(': ')`, then
`requestHeaders[pieces.shift()] = pieces.join(': ')`. -/
def addHeader (hdrs : HeadersMap) (fullHeader : List Char) : HeadersMap :=
  let pieces := splitCS fullHeader
  fun k => if k = pieces.headD [] then some (joinCS pieces.tail) else hdrs k


/-! ## Concrete states used by counterexamples and witnesses -/

/-- Registry holding one identity `"x"` registered with a one-second
interval and no prior completion timestamp. -/
def hC1 : Registry := fun k => if k = "x" then some ⟨none, 1000⟩ else none

/-- The empty registry (the module's initial `lastRunHash = {}`). -/
def hEmpty : Registry := fun _ => none

/-- Instance state directly after the constructor ran with a given
`maxRetries` and no `saveAs`, before any attempt. -/
def freshReq (mr : Nat) : Req :=
  { name := "unnamed request", maxRetries := mr, numTriesSoFar := 0,
    isRequestComplete := false, markedToCancel := false,
    requestTimeoutArmed := false, sleepTimerArmed := false,
    reqObjExists := false, reqObjAborted := false, saveAs := none }

/-- A fresh instance whose throttle-wait timer is pending. -/
def reqSleeping : Req := { freshReq 10 with sleepTimerArmed := true }

/-- A fresh instance that was already canceled. -/
def reqCanceled : Req := { freshReq 10 with markedToCancel := true }

/-- A fresh instance that already completed. -/
def reqDone : Req := { freshReq 10 with isRequestComplete := true }

/-- A fresh instance that has failed nine times. -/
def r9 : Req := { freshReq 10 with numTriesSoFar := 9 }

/-- A fresh instance constructed with `saveAs` set. -/
def reqSave : Req := { freshReq 10 with saveAs := some "image.jpg" }

/-- A fresh instance named `"x"`, throttled by `hC1`. -/
def reqX : Req := { freshReq 10 with name := "x" }

/-- Registry with one prior identity `"old"`. -/
def regOld : Registry := fun k => if k = "old" then some ⟨some 1, 5⟩ else none

/-- Interval entries for the new identity `"new"`, disjoint from
`regOld`. -/
def regNew : Registry := fun k => if k = "new" then some ⟨none, 7⟩ else none

/-- Header name `"Cookie"`. -/
def cookieName : List Char := ['C', 'o', 'o', 'k', 'i', 'e']

/-- Header value `"a=b; c: d"`, itself containing the `": "` separator. -/
def cookieValue : List Char := ['a', '=', 'b', ';', ' ', 'c', ':', ' ', 'd']

/-! ## Helper lemmas -/

/-- Unfolding lemma for `fail`: the state increment happens in every
branch and the outcome depends only on the incremented counter. -/
lemma fail_eq (r : Req) (s : Nat) :
    fail r s = ({ r with numTriesSoFar := r.numTriesSoFar + 1 },
      if r.maxRetries ≤ r.numTriesSoFar + 1 ∧ r.maxRetries ≠ 0
      then FailResult.threw "ADVANCEDREQUEST_RETRIES_EXCEEDED"
      else FailResult.scheduled (s * 1000)) := by
  simp only [fail]
  split <;> simp_all

/-- Driving the lifecycle through consecutive failures from a state below
a nonzero ceiling ends with the throw exactly at `maxRetries` attempts. -/
lemma attemptLoop_exhausts (fuel : Nat) : ∀ r : Req, r.maxRetries ≠ 0 →
    r.numTriesSoFar < r.maxRetries → r.maxRetries - r.numTriesSoFar ≤ fuel →
    attemptLoop r fuel = some r.maxRetries := by
  induction fuel with
  | zero => intro r h1 h2 h3; omega
  | succ fuel ih =>
    intro r h1 h2 h3
    by_cases hx : r.maxRetries ≤ r.numTriesSoFar + 1
    · have hend : r.numTriesSoFar + 1 = r.maxRetries := by omega
      rw [show attemptLoop r (fuel + 1) = (match fail r 0 with
        | (r', .threw _) => some r'.numTriesSoFar
        | (r', .scheduled _) => attemptLoop r' fuel) from rfl,
        fail_eq, if_pos ⟨hx, h1⟩]
      simp [hend]
    · rw [show attemptLoop r (fuel + 1) = (match fail r 0 with
        | (r', .threw _) => some r'.numTriesSoFar
        | (r', .scheduled _) => attemptLoop r' fuel) from rfl,
        fail_eq, if_neg (fun hcon => hx hcon.1)]
      exact ih _ h1 (by simp; omega) (by simp; omega)

/-- JS `split(': ')` never yields an empty piece list. -/
lemma splitCS_ne_nil (s : List Char) : splitCS s ≠ [] := by
  induction s using splitCS.induct with
  | case1 => simp [splitCS]
  | case2 rest ih => simp [splitCS]
  | case3 c rest h ihnil ih => simp [splitCS, h, ihnil]
  | case4 c rest h p ps hps ih => simp [splitCS, h, hps]

/-- JS `join(': ')` undoes `split(': ')`. -/
lemma joinCS_splitCS (s : List Char) : joinCS (splitCS s) = s := by
  induction s using splitCS.induct with
  | case1 => simp [splitCS, joinCS]
  | case2 rest ih =>
    have hne := splitCS_ne_nil rest
    rw [show splitCS (':' :: ' ' :: rest) = [] :: splitCS rest from by simp [splitCS]]
    cases h : splitCS rest with
    | nil => exact absurd h hne
    | cons p ps =>
      rw [h] at ih
      cases ps with
      | nil => simpa [joinCS] using ih
      | cons q qs => simpa [joinCS] using ih
  | case3 c rest h ihnil ih => exact absurd ihnil (splitCS_ne_nil rest)
  | case4 c rest h p ps hps ih =>
    rw [show splitCS (c :: rest) = (c :: p) :: ps from by simp [splitCS, h, hps]]
    rw [hps] at ih
    cases ps with
    | nil => simpa [joinCS] using ih
    | cons q qs => simpa [joinCS] using ih

/-- Splitting `nm ++ ": " ++ v` when `nm` is separator-free cuts exactly
after `nm`: the split of the whole string is `nm` followed by the split
of `v`. -/
lemma splitCS_sep_append (nm v : List Char) (hnm : noColonSpace nm = true) :
    splitCS (nm ++ ':' :: ' ' :: v) = nm :: splitCS v := by
  induction nm using noColonSpace.induct with
  | case1 => simp [splitCS]
  | case2 rest => simp [noColonSpace] at hnm
  | case3 c rest h ih =>
    have hrec := ih (by simpa [noColonSpace, h] using hnm)
    have hcase : ∀ r', c = ':' → rest ++ ':' :: ' ' :: v = ' ' :: r' → False := by
      intro r' hc hr
      cases rest with
      | nil => simp at hr
      | cons d ds =>
        simp at hr
        exact h ds hc (by simp [hr.1])
    rw [show splitCS (c :: rest ++ ':' :: ' ' :: v) = (c :: rest) :: splitCS v from by
      simp [splitCS, hcase, hrec]]

/-! ## Claim C1 -/

/-- C1 counterexample: for the identity `"x"` freshly registered in `hC1`
with `requiredInterval = 1000` and no `lastReqTime`, the first
`isSleepIntervalNecessary` check does initialize the timestamp to the
current time, but it returns `true` — a wait IS required — not `false` as
the claim states. -/
theorem freshEntry_wait_counterexample :
    hC1 "x" = some ⟨none, 1000⟩ ∧
    (isSleepIntervalNecessary hC1 "x" 5000).1 = true ∧
    (isSleepIntervalNecessary hC1 "x" 5000).2 "x" = some ⟨some 5000, 1000⟩ := by
  refine ⟨by decide, by decide, by decide⟩

/-- C1 amended: for every identity registered with a positive
`requiredInterval` and a falsy (absent or zero) `lastReqTime`, the first
`isSleepIntervalNecessary` check initializes the timestamp to the current
time and returns that a wait IS required, so the first use of a freshly
registered identity waits out a full interval instead of dispatching
immediately (matching the source comment that all last-run times start at
the moment of script start). -/
theorem isSleepIntervalNecessary_freshEntry (h : Registry) (name : String)
    (now : Nat) (e : IntervalEntry) (he : h name = some e)
    (hfresh : jsFalsyNum e.lastReqTime = true)
    (hpos : 0 < e.requiredInterval) :
    (isSleepIntervalNecessary h name now).1 = true ∧
    (isSleepIntervalNecessary h name now).2 name
      = some { e with lastReqTime := some now } := by
  unfold isSleepIntervalNecessary
  rw [he]
  simp [hfresh, updateEntry]
  omega

/-- C1 witness: the amended statement evaluated at the concrete registry
`hC1`. -/
theorem isSleepIntervalNecessary_freshEntry_witness :
    hC1 "x" = some ⟨none, 1000⟩ ∧
    jsFalsyNum (⟨none, 1000⟩ : IntervalEntry).lastReqTime = true ∧
    0 < (⟨none, 1000⟩ : IntervalEntry).requiredInterval ∧
    ((isSleepIntervalNecessary hC1 "x" 1234).1 = true ∧
     (isSleepIntervalNecessary hC1 "x" 1234).2 "x" = some ⟨some 1234, 1000⟩) :=
  ⟨by decide, rfl, by decide,
   isSleepIntervalNecessary_freshEntry hC1 "x" 1234 ⟨none, 1000⟩ (by decide) rfl (by decide)⟩

/-! ## Claim C2 -/

/-- C2: constructing with `maxRetries = 0` does NOT give unlimited
retries. The constructor's `args.maxRetries || 10` coerces the explicit
`0` to `10` (contradicting the source's own comment that passing `0`
means unlimited), so the tenth consecutive `fail` call throws retry
exhaustion. -/
theorem maxRetriesZero_coerced_exhausts :
    constructorMaxRetries (some 0) = 10 ∧
    (fail { freshReq (constructorMaxRetries (some 0)) with numTriesSoFar := 9 } 0).2
      = .threw "ADVANCEDREQUEST_RETRIES_EXCEEDED" ∧
    attemptLoop (freshReq (constructorMaxRetries (some 0))) 10 = some 10 := by
  refine ⟨rfl, by decide, by decide⟩

/-! ## Claim C3 -/

/-- C3: for every instance with retry ceiling `N > 0` and no attempts yet,
every `fail` call increments `numTriesSoFar` by exactly one; each of the
fail calls numbered `1 .. N-1` schedules a retry; the `N`-th fail call —
the one that makes `numTriesSoFar ≥ N` — throws exhaustion instead of
scheduling anything; and driving the lifecycle through consecutive
failures performs exactly `N` attempts in total (the initial attempt
counting as attempt 1). -/
theorem fail_ceiling (r : Req) (hm : 0 < r.maxRetries) (hc : r.numTriesSoFar = 0) :
    (∀ s, (fail r s).1.numTriesSoFar = r.numTriesSoFar + 1) ∧
    (∀ k d, k + 1 < r.maxRetries →
      fail { r with numTriesSoFar := k } d =
        ({ r with numTriesSoFar := k + 1 }, .scheduled (d * 1000))) ∧
    (fail { r with numTriesSoFar := r.maxRetries - 1 } 0).2
      = .threw "ADVANCEDREQUEST_RETRIES_EXCEEDED" ∧
    attemptLoop r r.maxRetries = some r.maxRetries := by
  refine ⟨?_, ?_, ?_, ?_⟩
  · intro s
    rw [fail_eq]
  · intro k d hk
    rw [fail_eq]
    simp only
    rw [if_neg (by simp; omega)]
  · rw [fail_eq]
    simp only
    rw [if_pos (by simp; omega)]
  · exact attemptLoop_exhausts r.maxRetries r (by omega) (by omega) (by omega)

/-- C3 witness: the ceiling-3 scenario — a fresh instance with
`maxRetries = 3` attempts exactly three times before exhaustion. -/
theorem fail_ceiling_witness :
    0 < (freshReq 3).maxRetries ∧ (freshReq 3).numTriesSoFar = 0 ∧
    (fail (freshReq 3) 7).1.numTriesSoFar = (freshReq 3).numTriesSoFar + 1 ∧
    attemptLoop (freshReq 3) (freshReq 3).maxRetries = some (freshReq 3).maxRetries := by
  have h := fail_ceiling (freshReq 3) (by decide) (by decide)
  exact ⟨by decide, by decide, h.1 7, h.2.2.2⟩

/-! ## Claim C4 -/

/-- C4: on reaching `onFinish`, the registry entry for the instance's
identity — exactly when one exists — has its `lastReqTime` overwritten
with the completion-time `now` passed to `onFinish` (never the dispatch
time, which `onFinish` does not receive); entries for all other
identities are unchanged; the instance is marked complete; and the
caller's callback is invoked exactly once with the payload. -/
theorem onFinish_updates_registry (h : Registry) (r : Req) (now : Nat) (res : String) :
    (∀ e, h r.name = some e →
      (onFinish h r now res).1 r.name = some { e with lastReqTime := some now }) ∧
    (h r.name = none → (onFinish h r now res).1 = h) ∧
    (∀ k, k ≠ r.name → (onFinish h r now res).1 k = h k) ∧
    (onFinish h r now res).2.1.isRequestComplete = true ∧
    (onFinish h r now res).2.2 = .called res := by
  refine ⟨?_, ?_, ?_, rfl, rfl⟩
  · intro e he
    simp [onFinish, he, updateEntry]
  · intro he
    simp [onFinish, he]
  · intro k hk
    simp only [onFinish]
    cases he : h r.name with
    | none => simp
    | some e => simp [updateEntry, hk]

/-- C4 witness: finishing the throttled instance `reqX` at time 777
stamps 777 into the `"x"` entry, leaves `"y"` alone, completes the
instance, and calls back with the payload. -/
theorem onFinish_updates_registry_witness :
    hC1 reqX.name = some ⟨none, 1000⟩ ∧
    (onFinish hC1 reqX 777 "body").1 "x" = some ⟨some 777, 1000⟩ ∧
    (onFinish hC1 reqX 777 "body").1 "y" = hC1 "y" ∧
    (onFinish hC1 reqX 777 "body").2.1.isRequestComplete = true ∧
    (onFinish hC1 reqX 777 "body").2.2 = .called "body" := by
  have h := onFinish_updates_registry hC1 reqX 777 "body"
  exact ⟨by decide, h.1 ⟨none, 1000⟩ (by decide), h.2.2.1 "y" (by decide),
    h.2.2.2.1, h.2.2.2.2⟩

/-! ## Claim C5 -/

/-- C5: when `markedToCancel` is set before dispatch, `run` returns
immediately with the `canceledBail` action: the registry is returned
untouched, the instance state is returned untouched (so every subsequent
`run` behaves identically), no transport dispatch happens and no callback
invocation is produced. -/
theorem run_canceled_noop (h : Registry) (r : Req) (now : Nat)
    (hc : r.markedToCancel = true) :
    run h r now = .ok (h, r, .canceledBail) := by
  simp [run, hc]

/-- C5 witness: running the canceled instance against the empty registry
bails out with everything unchanged. -/
theorem run_canceled_noop_witness :
    reqCanceled.markedToCancel = true ∧
    run hEmpty reqCanceled 5 = .ok (hEmpty, reqCanceled, .canceledBail) :=
  ⟨rfl, run_canceled_noop hEmpty reqCanceled 5 rfl⟩

/-! ## Claim C6 -/

/-- C6: when a `fail` call reaches the ceiling (`numTriesSoFar + 1 ≥
maxRetries` with `maxRetries ≠ 0`), the result is the
`ADVANCEDREQUEST_RETRIES_EXCEEDED` throw: no retry is scheduled (the
outcome is `threw`, not `scheduled`), the result carries no
`CallbackCall`, and the instance is not marked complete. -/
theorem fail_exhaustion_fatal (r : Req) (s : Nat)
    (hex : r.maxRetries ≤ r.numTriesSoFar + 1) (h0 : r.maxRetries ≠ 0)
    (hnc : r.isRequestComplete = false) :
    fail r s = ({ r with numTriesSoFar := r.numTriesSoFar + 1 },
      .threw "ADVANCEDREQUEST_RETRIES_EXCEEDED") ∧
    (fail r s).1.isRequestComplete = false := by
  rw [fail_eq, if_pos ⟨hex, h0⟩]
  exact ⟨rfl, hnc⟩

/-- C6 witness: the tenth failure of a default-ceiling instance throws
and leaves the instance incomplete. -/
theorem fail_exhaustion_fatal_witness :
    r9.maxRetries ≤ r9.numTriesSoFar + 1 ∧ r9.maxRetries ≠ 0 ∧
    r9.isRequestComplete = false ∧
    (fail r9 0 = ({ r9 with numTriesSoFar := 10 },
        .threw "ADVANCEDREQUEST_RETRIES_EXCEEDED") ∧
      (fail r9 0).1.isRequestComplete = false) :=
  ⟨by decide, by decide, rfl, fail_exhaustion_fatal r9 0 (by decide) (by decide) rfl⟩

/-! ## Claim C7 -/

/-- C7 counterexample: an uncanceled, uncompleted instance with a pending
throttle-wait timer still has that timer pending after `cancelRequest`
(the source stores no id for it, so only `_requestTimeoutInt` is
cleared), refuting the part of the claim that says the throttle-wait
timer is cleared. -/
theorem cancelRequest_keeps_sleep_timer_counterexample :
    reqSleeping.markedToCancel = false ∧ reqSleeping.isRequestComplete = false ∧
    reqSleeping.sleepTimerArmed = true ∧
    (cancelRequest reqSleeping).markedToCancel = true ∧
    (cancelRequest reqSleeping).sleepTimerArmed = true := by
  refine ⟨rfl, rfl, rfl, by decide, by decide⟩

/-- C7 amended: `cancelRequest` is a state-preserving no-op when the
instance is already canceled or already completed (in particular
`markedToCancel` is not newly set and a delivered result is not revoked);
otherwise it sets `markedToCancel`, aborts the transport call if one
exists, and clears the pending timeout guard — but NOT the throttle-wait
timer, which stays pending and is instead neutralized by the
cancellation check at the start of the next `run`. -/
theorem cancelRequest_cases (r : Req) :
    (r.markedToCancel = true → cancelRequest r = r) ∧
    (r.markedToCancel = false → r.isRequestComplete = true → cancelRequest r = r) ∧
    (r.markedToCancel = false → r.isRequestComplete = false →
      cancelRequest r = { r with
        reqObjAborted := r.reqObjAborted || r.reqObjExists,
        requestTimeoutArmed := false,
        markedToCancel := true }) := by
  refine ⟨fun h1 => by simp [cancelRequest, h1],
    fun h1 h2 => by simp [cancelRequest, h1, h2],
    fun h1 h2 => by simp [cancelRequest, h1, h2]⟩

/-- C7 witness: all three branches of the amended statement evaluated on
concrete instances. -/
theorem cancelRequest_cases_witness :
    reqCanceled.markedToCancel = true ∧
    reqDone.markedToCancel = false ∧ reqDone.isRequestComplete = true ∧
    reqSleeping.markedToCancel = false ∧ reqSleeping.isRequestComplete = false ∧
    cancelRequest reqCanceled = reqCanceled ∧
    cancelRequest reqDone = reqDone ∧
    cancelRequest reqSleeping = { reqSleeping with
      reqObjAborted := false, requestTimeoutArmed := false, markedToCancel := true } := by
  have h1 := cancelRequest_cases reqCanceled
  have h2 := cancelRequest_cases reqDone
  have h3 := cancelRequest_cases reqSleeping
  exact ⟨rfl, rfl, rfl, rfl, rfl, h1.1 rfl, h2.2.1 rfl rfl, h3.2.2 rfl rfl⟩

/-! ## Claim C8 -/

/-- C8: merging a map of interval entries whose identities are all absent
from the registry and then removing those identities restores every key
to its pre-merge value; but for a key already present before the merge,
removing deletes it, so merge-then-remove is not the identity on prior
keys. -/
theorem lastRunHash_merge_remove (h items : Registry) :
    ((∀ k, (items k).isSome → h k = none) →
      ∀ k, removeFromLastRunHash items (addToLastRunHash h items) k = h k) ∧
    (∀ k, (h k).isSome → (items k).isSome →
      removeFromLastRunHash items (addToLastRunHash h items) k = none) := by
  constructor
  · intro hd k
    simp only [removeFromLastRunHash, addToLastRunHash]
    cases hik : items k with
    | none => simp
    | some v => simp [(hd k (by simp [hik])).symm]
  · intro k h1 h2
    simp only [removeFromLastRunHash, addToLastRunHash]
    simp [h2]

/-- C8 witness: merging and removing the disjoint `regNew` restores
`regOld` on both keys, while merge-then-remove of `regOld` into itself
deletes the prior `"old"` entry. -/
theorem lastRunHash_merge_remove_witness :
    regOld "old" = some ⟨some 1, 5⟩ ∧ regNew "new" = some ⟨none, 7⟩ ∧
    regOld "new" = none ∧
    removeFromLastRunHash regNew (addToLastRunHash regOld regNew) "new" = regOld "new" ∧
    removeFromLastRunHash regNew (addToLastRunHash regOld regNew) "old" = regOld "old" ∧
    removeFromLastRunHash regOld (addToLastRunHash regOld regOld) "old" = none := by
  have hd : ∀ k, (regNew k).isSome → regOld k = none := by
    intro k hk
    by_cases hkn : k = "new"
    · subst hkn; decide
    · rw [show regNew k = none from by simp [regNew, hkn]] at hk
      simp at hk
  have h1 := lastRunHash_merge_remove regOld regNew
  have h2 := lastRunHash_merge_remove regOld regOld
  exact ⟨by decide, by decide, by decide, h1.1 hd "new", h1.1 hd "old",
    h2.2 "old" (by decide) (by decide)⟩

/-! ## Claim C9 -/

/-- C9: for every header string of the form `Name ++ ": " ++ Value` with
`Name` free of the separator (the decomposition forced by splitting at
the first occurrence), `addHeader` stores exactly `Value` under key
`Name` — even when `Value` itself contains `": "` — and leaves every
other header key unchanged. -/
theorem addHeader_first_sep (hdrs : HeadersMap) (nm v : List Char)
    (hnm : noColonSpace nm = true) :
    addHeader hdrs (nm ++ ':' :: ' ' :: v) nm = some v ∧
    (∀ k, k ≠ nm → addHeader hdrs (nm ++ ':' :: ' ' :: v) k = hdrs k) := by
  have hs := splitCS_sep_append nm v hnm
  constructor
  · simp [addHeader, hs, joinCS_splitCS]
  · intro k hk
    simp [addHeader, hs, hk]

/-- C9 witness: `addHeader` on `"Cookie: a=b; c: d"` stores the full value
`"a=b; c: d"` — which contains the separator — intact under `"Cookie"`. -/
theorem addHeader_first_sep_witness :
    noColonSpace cookieName = true ∧
    addHeader (fun _ => none) (cookieName ++ ':' :: ' ' :: cookieValue) cookieName
      = some cookieValue := by
  have h := addHeader_first_sep (fun _ => none) cookieName cookieValue (by decide)
  exact ⟨by decide, h.1⟩

/-! ## Claim C10 -/

/-- C10: an uncanceled, unthrottled `run` of an instance constructed with
`saveAs` set reaches the `reqObj.pipe(fs.createWriteStream(...))` line
and raises the `ReferenceError` for the unbound identifier `fs`, since
`"fs"` is not among the source's required modules; the `saveAs` path can
therefore never complete without error. -/
theorem run_saveAs_referenceError (h : Registry) (r : Req) (now : Nat) (p : String)
    (hc : r.markedToCancel = false)
    (hs : (isSleepIntervalNecessary h r.name now).1 = false)
    (hsave : r.saveAs = some p) :
    run h r now = .error .fsNotDefined := by
  cases hq : isSleepIntervalNecessary h r.name now with
  | mk b h2 =>
    rw [hq] at hs
    simp only at hs
    subst hs
    simp [run, hc, hq, hsave, moduleRequires]

/-- C10 witness: running the `saveAs` instance against the empty registry
raises the reference error. -/
theorem run_saveAs_referenceError_witness :
    reqSave.markedToCancel = false ∧
    (isSleepIntervalNecessary hEmpty reqSave.name 0).1 = false ∧
    reqSave.saveAs = some "image.jpg" ∧
    run hEmpty reqSave 0 = .error .fsNotDefined :=
  ⟨rfl, by decide, rfl,
    run_saveAs_referenceError hEmpty reqSave 0 "image.jpg" rfl (by decide) rfl⟩

end AdvancedRequest
